import Mathlib

/-!
# Sentinel — verification of the policy-governed trading session kernel

A shallow embedding, in Lean 4, of the core of the Sentinel repository:

* the policy engine (`src/policy-engine/engine.ts`),
* the session manager and Nitrolite channel ledger (`src/session/manager.ts`,
  `src/session/channel.ts`),
* the MCP tool pipeline (`src/mcp-server/tools.ts`),
* the on-chain policy guard and wallet (`contracts/src/PolicyGuard.sol`,
  `contracts/src/SentinelWallet.sol`),
* the local constant-product quote (`SwapSimulator.simulateLocal`,
  `src/mcp-server/swap-simulator.ts`; its source is concatenated into
  `src/mcp-server/uniswap-client.test.ts`, lines 109-247).

JavaScript `number` values are embedded as exact rationals (`ℚ`); the string
rendering of numbers inside serialized JSON and log messages is modelled
exactly for integral values (the only values the verified properties touch)
and deterministically otherwise.  `Map` objects keyed by assets are embedded
as functions `Asset → Option SessionBalance`; insertion order (USDC then ETH,
fixed by `SessionManager.open`) is made explicit where the code iterates.
Node's `crypto.createHash("sha256")` is embedded as an executable SHA-256
over byte lists.  Sources of nondeterminism (`randomUUID()`, timestamps) are
passed in as explicit string parameters.
-/

set_option maxRecDepth 100000

namespace Sentinel

/-! ## SHA-256 (executable embedding of node `crypto` `sha256`) -/

namespace SHA256

/-- 2^32, the word modulus. -/
def M32 : Nat := 4294967296

/-- Truncate to a 32-bit word. -/
def mask32 (x : Nat) : Nat := x % M32

/-- Addition modulo 2^32. -/
def add32 (a b : Nat) : Nat := (a + b) % M32

/-- Right rotation of a 32-bit word. -/
def rotr (n x : Nat) : Nat := mask32 ((x >>> n) ||| (x <<< (32 - n)))

def bigSigma0 (x : Nat) : Nat := (rotr 2 x) ^^^ (rotr 13 x) ^^^ (rotr 22 x)

def bigSigma1 (x : Nat) : Nat := (rotr 6 x) ^^^ (rotr 11 x) ^^^ (rotr 25 x)

def smallSigma0 (x : Nat) : Nat := (rotr 7 x) ^^^ (rotr 18 x) ^^^ (x >>> 3)

def smallSigma1 (x : Nat) : Nat := (rotr 17 x) ^^^ (rotr 19 x) ^^^ (x >>> 10)

def ch (x y z : Nat) : Nat := (x &&& y) ^^^ ((x ^^^ 4294967295) &&& z)

def maj (x y z : Nat) : Nat := (x &&& y) ^^^ (x &&& z) ^^^ (y &&& z)

/-- The 64 SHA-256 round constants (FIPS 180-2 §4.2.2, in decimal). -/
def K : List Nat :=
  [1116352408, 1899447441, 3049323471, 3921009573, 961987163,
   1508970993, 2453635748, 2870763221, 3624381080, 310598401,
   607225278, 1426881987, 1925078388, 2162078206, 2614888103,
   3248222580, 3835390401, 4022224774, 264347078, 604807628,
   770255983, 1249150122, 1555081692, 1996064986, 2554220882,
   2821834349, 2952996808, 3210313671, 3336571891, 3584528711,
   113926993, 338241895, 666307205, 773529912, 1294757372,
   1396182291, 1695183700, 1986661051, 2177026350, 2456956037,
   2730485921, 2820302411, 3259730800, 3345764771, 3516065817,
   3600352804, 4094571909, 275423344, 430227734, 506948616,
   659060556, 883997877, 958139571, 1322822218, 1537002063,
   1747873779, 1955562222, 2024104815, 2227730452, 2361852424,
   2428436474, 2756734187, 3204031479, 3329325298]

/-- The initial hash value (FIPS 180-2 §5.3.2, in decimal). -/
def H0 : List Nat :=
  [1779033703, 3144134277, 1013904242, 2773480762,
   1359893119, 2600822924, 528734635, 1541459225]

/-- Big-endian bytes of `n`, `k` bytes wide. -/
def beBytes (k n : Nat) : List Nat :=
  (List.range k).map fun i => (n >>> (8 * (k - 1 - i))) &&& 255

/-- SHA-256 padding: append `0x80`, zero bytes up to 56 mod 64, then the
bit length as an 8-byte big-endian integer. -/
def pad (msg : List Nat) : List Nat :=
  let zeros := (64 + 55 - (msg.length % 64)) % 64
  msg ++ [0x80] ++ List.replicate zeros 0 ++ beBytes 8 (8 * msg.length)

/-- Fold 4 big-endian bytes into one word. -/
def toWord (bs : List Nat) : Nat := bs.foldl (fun acc b => acc * 256 + b) 0

/-- Group a list into chunks of `k` elements (fuel-structured so the kernel
can evaluate it). -/
def chunksAux (k : Nat) : Nat → List Nat → List (List Nat)
  | 0, _ => []
  | _, [] => []
  | fuel + 1, l => l.take k :: chunksAux k fuel (l.drop k)

/-- Group a list into chunks of `k` elements. -/
def chunks (k : Nat) (l : List Nat) : List (List Nat) := chunksAux k l.length l

/-- Extend a 16-word block to the 64-word message schedule. -/
def extendSchedule (ws : List Nat) : Nat → List Nat
  | 0 => ws
  | n + 1 =>
    let len := ws.length
    let w := add32 (add32 (smallSigma1 (ws.getD (len - 2) 0)) (ws.getD (len - 7) 0))
                   (add32 (smallSigma0 (ws.getD (len - 15) 0)) (ws.getD (len - 16) 0))
    extendSchedule (ws ++ [w]) n

/-- One round of the SHA-256 compression function. -/
def round (st : List Nat) (kw : Nat × Nat) : List Nat :=
  match st with
  | [a, b, c, d, e, f, g, h] =>
    let t1 := add32 (add32 (add32 h (bigSigma1 e)) (add32 (ch e f g) kw.1)) kw.2
    let t2 := add32 (bigSigma0 a) (maj a b c)
    [add32 t1 t2, a, b, c, add32 d t1, e, f, g]
  | other => other

/-- Compress one 64-byte block into the running hash. -/
def compress (h : List Nat) (block : List Nat) : List Nat :=
  let ws := extendSchedule ((chunks 4 block).map toWord) 48
  let st := (ws.zip K).foldl round h
  (h.zip st).map fun p => add32 p.1 p.2

/-- SHA-256 digest of a byte list, as the 8 hash words. -/
def sha256Words (msg : List Nat) : List Nat :=
  (chunks 64 (pad msg)).foldl compress H0

def hexDigit (n : Nat) : Char :=
  if n < 10 then Char.ofNat (48 + n) else Char.ofNat (87 + n)

/-- Lower-case hex rendering of a word, 8 digits. -/
def wordToHex (w : Nat) : String :=
  String.mk ((List.range 8).map fun i => hexDigit ((w >>> (4 * (7 - i))) &&& 15))

/-- Hex digest (what node's `digest("hex")` returns). -/
def sha256hex (msg : List Nat) : String :=
  String.join ((sha256Words msg).map wordToHex)

end SHA256

/-- Byte list of an ASCII string (UTF-8 agrees with code points on ASCII,
which is all the kernel ever hashes). -/
def strBytes (s : String) : List Nat := s.data.map Char.toNat

/-! ## Shared data model (`src/shared/types.ts`, `src/shared/constants.ts`) -/

/-- The closed asset enumeration (`type Asset = "USDC" | "ETH"`). -/
inductive Asset : Type
  | USDC
  | ETH
  deriving DecidableEq, Repr, Inhabited

/-- The asset's symbol string, as it appears in serialized JSON. -/
def Asset.symbol : Asset → String
  | .USDC => "USDC"
  | .ETH => "ETH"

/-- Rendering of a JS `number` into a string.  The repository only ever
serializes integral policy values and balances at the places the verified
properties inspect; there the JS rendering is plain decimal, which this
function reproduces.  (Non-integral values get a deterministic `num/den`
rendering; no verified property depends on that branch.) -/
def numStr (q : ℚ) : String :=
  if q.den = 1 then toString q.num else toString q.num ++ "/" ++ toString q.den

/-- `PolicyConfig` (`src/shared/types.ts`). -/
structure PolicyConfig where
  maxTradePercent : ℚ
  maxSlippageBps : ℚ
  allowedDexes : List String
  allowedAssets : List Asset
  deriving DecidableEq, Repr

/-- `DEFAULT_POLICY` (`src/shared/constants.ts`). -/
def DEFAULT_POLICY : PolicyConfig :=
  { maxTradePercent := 2
    maxSlippageBps := 50
    allowedDexes := ["uniswap-v4"]
    allowedAssets := [.USDC, .ETH] }

/-- `BPS_DENOMINATOR` (`src/shared/constants.ts`). -/
def BPS_DENOMINATOR : ℚ := 10000

/-- `SESSION.defaultDepositUsdc` (`src/shared/constants.ts`). -/
def defaultDepositUsdc : ℚ := 1000

/-- A JSON string literal. -/
def jsonStr (s : String) : String := "\"" ++ s ++ "\""

/-- A JSON array of pre-rendered elements. -/
def jsonArr (elems : List String) : String :=
  "[" ++ String.intercalate "," elems ++ "]"

/-- The serialization performed by
`JSON.stringify(this.config, Object.keys(this.config).sort())`
(`src/policy-engine/engine.ts:239`).  With an array replacer, ECMA-262's
`SerializeJSONObject` emits the top-level keys in replacer order — here the
lexicographically sorted key list `allowedAssets, allowedDexes,
maxSlippageBps, maxTradePercent` — while nested arrays are serialized
element-wise in their stored order (the replacer list does not apply inside
arrays, and `JSON.stringify` never sorts array elements). -/
def serializePolicy (c : PolicyConfig) : String :=
  "\x7b\"allowedAssets\":" ++ jsonArr (c.allowedAssets.map (fun a => jsonStr a.symbol))
    ++ ",\"allowedDexes\":" ++ jsonArr (c.allowedDexes.map jsonStr)
    ++ ",\"maxSlippageBps\":" ++ numStr c.maxSlippageBps
    ++ ",\"maxTradePercent\":" ++ numStr c.maxTradePercent
    ++ "\x7d"

/-- `PolicyEngine.computePolicyHash` (`src/policy-engine/engine.ts:238-241`):
`"0x" + sha256(serialized).digest("hex")`. -/
def computePolicyHash (c : PolicyConfig) : String :=
  "0x" ++ SHA256.sha256hex (strBytes (serializePolicy c))

/-- `SwapProposal` (`src/shared/types.ts`). -/
structure SwapProposal where
  id : String
  tokenIn : Asset
  tokenOut : Asset
  amountIn : ℚ
  estimatedAmountOut : ℚ
  maxSlippageBps : ℚ
  dex : String
  timestamp : String
  deriving DecidableEq, Repr

/-- `PolicyRule` (`src/shared/types.ts`). -/
structure PolicyRule where
  id : String
  name : String
  description : String
  deriving DecidableEq, Repr

/-- A `number | string` JSON value (the `details.value` / `details.limit`
fields of a rule result). -/
inductive JSValue : Type
  | num (q : ℚ)
  | str (s : String)
  deriving DecidableEq, Repr

/-- The `details` record of a rule result. -/
structure RuleDetails where
  value : JSValue
  limit : JSValue
  deriving DecidableEq, Repr

/-- `PolicyRuleResult` (`src/shared/types.ts`). -/
structure PolicyRuleResult where
  rule : PolicyRule
  passed : Bool
  reason : Option String
  details : Option RuleDetails
  deriving DecidableEq, Repr

/-- `PolicyDecision` (`src/shared/types.ts`). -/
structure PolicyDecision where
  approved : Bool
  results : List PolicyRuleResult
  evaluatedAt : String
  policyHash : String
  deriving DecidableEq, Repr

/-- `SessionBalance` (`src/shared/types.ts`). -/
structure SessionBalance where
  asset : Asset
  amount : ℚ
  initialAmount : ℚ
  pnl : ℚ
  deriving DecidableEq, Repr

/-- The session's balance `Map<Asset, SessionBalance>`, embedded as a
partial function (`Map.get` is application). -/
def Balances : Type := Asset → Option SessionBalance

/-- `Map.set` on the balance map. -/
def Balances.set (bs : Balances) (a : Asset) (b : SessionBalance) : Balances :=
  fun x => if x = a then some b else bs x

/-! ## Policy Engine (`src/policy-engine/engine.ts`) -/

namespace PolicyEngine

/-- The static rule records `RULES` (`src/policy-engine/engine.ts:22-43`). -/
def MAX_TRADE_SIZE : PolicyRule :=
  { id := "max-trade-size", name := "Maximum Trade Size"
    description := "Trade amount must not exceed configured % of session balance" }

def ALLOWED_DEX : PolicyRule :=
  { id := "allowed-dex", name := "Allowed DEX"
    description := "Trades may only be routed through whitelisted DEXes" }

def ALLOWED_ASSETS : PolicyRule :=
  { id := "allowed-assets", name := "Allowed Assets"
    description := "Only whitelisted assets may be traded" }

def MAX_SLIPPAGE : PolicyRule :=
  { id := "max-slippage", name := "Maximum Slippage"
    description := "Slippage tolerance must not exceed configured limit" }

/-- RULE 1, `checkMaxTradeSize` (`src/policy-engine/engine.ts:131-162`). -/
def checkMaxTradeSize (cfg : PolicyConfig) (p : SwapProposal) (balances : Balances) :
    PolicyRuleResult :=
  match balances p.tokenIn with
  | none =>
    { rule := MAX_TRADE_SIZE
      passed := false
      reason := some ("No session balance found for " ++ p.tokenIn.symbol)
      details := some { value := .num p.amountIn, limit := .num 0 } }
  | some balance =>
    let maxAllowed := balance.amount * cfg.maxTradePercent / 100
    let passed : Bool := decide (p.amountIn ≤ maxAllowed)
    { rule := MAX_TRADE_SIZE
      passed := passed
      reason := if passed then none else
        some ("Trade amount " ++ numStr p.amountIn ++ " exceeds "
          ++ numStr cfg.maxTradePercent ++ "% of balance (max: " ++ numStr maxAllowed ++ ")")
      details := some { value := .num p.amountIn, limit := .num maxAllowed } }

/-- RULE 2, `checkAllowedDex` (`src/policy-engine/engine.ts:168-183`). -/
def checkAllowedDex (cfg : PolicyConfig) (p : SwapProposal) : PolicyRuleResult :=
  let passed : Bool := cfg.allowedDexes.contains p.dex
  { rule := ALLOWED_DEX
    passed := passed
    reason := if passed then none else
      some ("DEX \"" ++ p.dex ++ "\" is not whitelisted. Allowed: ["
        ++ String.intercalate ", " cfg.allowedDexes ++ "]")
    details := some { value := .str p.dex
                      limit := .str (String.intercalate ", " cfg.allowedDexes) } }

/-- RULE 3, `checkAllowedAssets` (`src/policy-engine/engine.ts:189-212`). -/
def checkAllowedAssets (cfg : PolicyConfig) (p : SwapProposal) : PolicyRuleResult :=
  let allowedStrs := cfg.allowedAssets.map Asset.symbol
  let tokenInAllowed : Bool := cfg.allowedAssets.contains p.tokenIn
  let tokenOutAllowed : Bool := cfg.allowedAssets.contains p.tokenOut
  let passed : Bool := tokenInAllowed && tokenOutAllowed
  let violations :=
    (if tokenInAllowed then [] else ["tokenIn=" ++ p.tokenIn.symbol])
      ++ (if tokenOutAllowed then [] else ["tokenOut=" ++ p.tokenOut.symbol])
  { rule := ALLOWED_ASSETS
    passed := passed
    reason := if passed then none else
      some ("Disallowed assets: " ++ String.intercalate ", " violations
        ++ ". Allowed: [" ++ String.intercalate ", " allowedStrs ++ "]")
    details := some { value := .str (p.tokenIn.symbol ++ "/" ++ p.tokenOut.symbol)
                      limit := .str (String.intercalate ", " allowedStrs) } }

/-- RULE 4, `checkMaxSlippage` (`src/policy-engine/engine.ts:218-233`). -/
def checkMaxSlippage (cfg : PolicyConfig) (p : SwapProposal) : PolicyRuleResult :=
  let passed : Bool := decide (p.maxSlippageBps ≤ cfg.maxSlippageBps)
  { rule := MAX_SLIPPAGE
    passed := passed
    reason := if passed then none else
      some ("Slippage " ++ numStr p.maxSlippageBps ++ " bps exceeds max "
        ++ numStr cfg.maxSlippageBps ++ " bps ("
        ++ numStr (cfg.maxSlippageBps / BPS_DENOMINATOR * 100) ++ "%)")
    details := some { value := .num p.maxSlippageBps, limit := .num cfg.maxSlippageBps } }

/-- `PolicyEngine.evaluate` (`src/policy-engine/engine.ts:70-112`): run the
four rules in their fixed order; `approved` is `results.every(r => r.passed)`.
The embedding is a total function — the source performs no partial operation
(no exception can escape), which is the claim's "never throws".  The
`evaluatedAt` timestamp is an explicit parameter. -/
def evaluate (cfg : PolicyConfig) (p : SwapProposal) (balances : Balances)
    (now : String) : PolicyDecision :=
  let results := [checkMaxTradeSize cfg p balances, checkAllowedDex cfg p,
                  checkAllowedAssets cfg p, checkMaxSlippage cfg p]
  { approved := results.all (·.passed)
    results := results
    evaluatedAt := now
    policyHash := computePolicyHash cfg }

end PolicyEngine

/-! ## Nitrolite channel ledger (`src/session/channel.ts`) -/

namespace NitroliteChannel

/-- `NitroliteConfig`. -/
structure Config where
  brokerUrl : String
  signerPrivateKey : String
  brokerAddress : String
  deriving DecidableEq, Repr

/-- `ChannelStatus`. -/
inductive ChannelStatus : Type
  | prefund
  | «open»
  | running
  | closing
  | finalized
  deriving DecidableEq, Repr

def ChannelStatus.str : ChannelStatus → String
  | .prefund => "prefund"
  | .«open» => "open"
  | .running => "running"
  | .closing => "closing"
  | .finalized => "finalized"

/-- `ChannelState`.  `balances` is the `Record<Asset, number>` built by
iterating the balance map; the record's key order (USDC then ETH, the map's
insertion order fixed by `SessionManager.open`) is kept explicit. -/
structure ChannelState where
  channelId : String
  turnNum : ℕ
  balances : List (Asset × ℚ)
  stateHash : String
  signatures : List String
  timestamp : String
  deriving DecidableEq, Repr, Inhabited

/-- `ChannelSession`. -/
structure ChannelSession where
  channelId : String
  status : ChannelStatus
  participants : String × String
  currentState : ChannelState
  stateHistory : List ChannelState
  openedAt : String
  closedAt : Option String
  deriving DecidableEq, Repr

/-- The mutable `NitroliteChannel` client object (`channel` and
`isConnected` fields). -/
structure Client where
  config : Config
  isConnected : Bool
  channel : Option ChannelSession
  deriving DecidableEq, Repr

/-- A fresh client, as built by the constructor. -/
def init (cfg : Config) : Client :=
  { config := cfg, isConnected := false, channel := none }

/-- `for (const [asset, bal] of balances) record[asset] = bal.amount` —
the map iterates in insertion order, USDC then ETH. -/
def balancesRecord (bs : Balances) : List (Asset × ℚ) :=
  [Asset.USDC, Asset.ETH].filterMap fun a => (bs a).map fun b => (a, b.amount)

/-- `JSON.stringify` of the balance record. -/
def encodeBalances (r : List (Asset × ℚ)) : String :=
  "\x7b" ++ String.intercalate ","
      (r.map fun p => jsonStr p.1.symbol ++ ":" ++ numStr p.2) ++ "\x7d"

/-- `JSON.stringify({ channelId, turnNum, balances })`
(`src/session/channel.ts:592`), keys in object-literal order. -/
def encodeState (channelId : String) (turnNum : ℕ) (r : List (Asset × ℚ)) : String :=
  "\x7b\"channelId\":" ++ jsonStr channelId
    ++ ",\"turnNum\":" ++ toString turnNum
    ++ ",\"balances\":" ++ encodeBalances r ++ "\x7d"

/-- `createState` (`src/session/channel.ts:587-603`): hash the canonical
encoding, signatures start empty. -/
def createState (channelId : String) (turnNum : ℕ) (r : List (Asset × ℚ))
    (ts : String) : ChannelState :=
  { channelId := channelId
    turnNum := turnNum
    balances := r
    stateHash := "0x" ++ SHA256.sha256hex (strBytes (encodeState channelId turnNum r))
    signatures := []
    timestamp := ts }

/-- `signState` (`src/session/channel.ts:605-611`): sha256 of
`privateKey + ":" + stateHash`, hex, `0x`-prefixed. -/
def signState (signerPrivateKey : String) (st : ChannelState) : String :=
  "0x" ++ SHA256.sha256hex (strBytes (signerPrivateKey ++ ":" ++ st.stateHash))

/-- `deriveSigner` (`src/session/channel.ts:613-620`). -/
def deriveSigner (signerPrivateKey : String) : String :=
  "0x" ++ (SHA256.sha256hex (strBytes signerPrivateKey)).take 40

/-- `connect` (`src/session/channel.ts:409-418`): the stubbed handshake
always succeeds. -/
def connect (c : Client) : Client := { c with isConnected := true }

/-- `disconnect`. -/
def disconnect (c : Client) : Client := { c with isConnected := false }

/-- The body of `openChannel` after its guards
(`src/session/channel.ts:440-475`): build the turn-0 prefund state, sign it
with the operator key, attach the **simulated** broker co-signature
`broker-sig-<uuid>` (`randomUUID()` is the `uuidSig` parameter), and store
the channel as `running`. -/
def openChannelFresh (c : Client) (initialBalances : Balances)
    (uuid uuidSig ts : String) : Except String (Client × ChannelSession) :=
  let channelId := "ch-" ++ uuid
  let record := balancesRecord initialBalances
  let prefundState0 := createState channelId 0 record ts
  let operatorSig := signState c.config.signerPrivateKey prefundState0
  let brokerSig := "broker-sig-" ++ uuidSig
  let prefundState := { prefundState0 with signatures := [operatorSig, brokerSig] }
  let session : ChannelSession :=
    { channelId := channelId
      status := .running
      participants := (deriveSigner c.config.signerPrivateKey, c.config.brokerAddress)
      currentState := prefundState
      stateHistory := [prefundState]
      openedAt := ts
      closedAt := none }
  .ok ({ c with channel := some session }, session)

/-- `openChannel` (`src/session/channel.ts:429-476`). -/
def openChannel (c : Client) (initialBalances : Balances)
    (uuid uuidSig ts : String) : Except String (Client × ChannelSession) :=
  if !c.isConnected then
    .error "Not connected to Nitrolite broker. Call connect() first."
  else match c.channel with
    | some ch =>
      if ch.status ≠ .finalized then
        .error ("Channel " ++ ch.channelId ++ " is already " ++ ch.status.str)
      else openChannelFresh c initialBalances uuid uuidSig ts
    | none => openChannelFresh c initialBalances uuid uuidSig ts

/-- `updateState` (`src/session/channel.ts:485-515`): turn `n+1`, operator
signature plus simulated broker co-signature, append to history.  No
signature is ever verified. -/
def updateState (c : Client) (newBalances : Balances)
    (uuidSig ts : String) : Except String (Client × ChannelState) :=
  if !c.isConnected then
    .error "Not connected to Nitrolite broker. Call connect() first."
  else match c.channel with
    | some ch =>
      if ch.status = .running then
        let turnNum := ch.currentState.turnNum + 1
        let record := balancesRecord newBalances
        let newState0 := createState ch.channelId turnNum record ts
        let operatorSig := signState c.config.signerPrivateKey newState0
        let newState := { newState0 with signatures := [operatorSig, "broker-sig-" ++ uuidSig] }
        let ch' := { ch with currentState := newState
                             stateHistory := ch.stateHistory ++ [newState] }
        .ok ({ c with channel := some ch' }, newState)
      else .error ("Channel is not running (status: " ++ ch.status.str ++ ")")
    | none => .error "Channel is not running (status: none)"

/-- `closeChannel` (`src/session/channel.ts:526-561`): a final state over the
current balances, both "signatures", status `finalized`. -/
def closeChannel (c : Client) (uuidSig ts : String) :
    Except String (Client × ChannelSession) :=
  if !c.isConnected then
    .error "Not connected to Nitrolite broker. Call connect() first."
  else match c.channel with
    | some ch =>
      if ch.status = .running then
        let finalTurn := ch.currentState.turnNum + 1
        let record := ch.currentState.balances
        let finalState0 := createState ch.channelId finalTurn record ts
        let operatorSig := signState c.config.signerPrivateKey finalState0
        let finalState := { finalState0 with signatures := [operatorSig, "broker-sig-" ++ uuidSig] }
        let ch' := { ch with currentState := finalState
                             stateHistory := ch.stateHistory ++ [finalState]
                             status := .finalized
                             closedAt := some ts }
        .ok ({ c with channel := some ch' }, ch')
      else .error ("Channel is not running (status: " ++ ch.status.str ++ ")")
    | none => .error "Channel is not running (status: none)"

end NitroliteChannel

/-! ## Session manager (`src/session/manager.ts`) -/

/-- `SessionStatus` (`src/shared/types.ts:106-111`) — note the union has no
`"none"` member; `"none"` appears only in log/error interpolation via
`?? "none"`. -/
inductive SessionStatus : Type
  | opening
  | active
  | closing
  | settled
  | error
  deriving DecidableEq, Repr

def SessionStatus.str : SessionStatus → String
  | .opening => "opening"
  | .active => "active"
  | .closing => "closing"
  | .settled => "settled"
  | .error => "error"

/-- `SwapResult` (`src/shared/types.ts`). -/
structure SwapResult where
  proposalId : String
  success : Bool
  amountIn : ℚ
  amountOut : ℚ
  executedPrice : ℚ
  executionType : String
  timestamp : String
  deriving DecidableEq, Repr

/-- `SessionState` (`src/shared/types.ts`). -/
structure SessionState where
  sessionId : String
  status : SessionStatus
  balances : Balances
  history : List SwapResult
  openedAt : String
  closedAt : Option String
  settlementTxHash : Option String

namespace SessionManager

/-- The message thrown by `assertActive`
(`src/session/manager.ts:322-328`). -/
def assertActiveMsg (session : Option SessionState) : String :=
  "Session is not active (current: \""
    ++ (match session with | some st => st.status.str | none => "none")
    ++ "\"). Cannot perform operations."

/-- The in-memory part of `SessionManager.open`
(`src/session/manager.ts:50-73`): a fresh `active` session whose balance map
holds USDC = deposit and ETH = 0, `initialAmount` mirroring `amount`. -/
def openState (depositUsdc : ℚ) (sessionId openedAt : String) : SessionState :=
  { sessionId := sessionId
    status := .active
    balances := fun a =>
      match a with
      | .USDC => some { asset := .USDC, amount := depositUsdc
                        initialAmount := depositUsdc, pnl := 0 }
      | .ETH => some { asset := .ETH, amount := 0, initialAmount := 0, pnl := 0 }
    history := []
    openedAt := openedAt
    closedAt := none
    settlementTxHash := none }

/-- `SessionManager.open` (`src/session/manager.ts:45-90`): refuse a second
active session; open the Nitrolite channel when one is configured, catching
any channel failure and continuing in memory-only mode. -/
def openSession (cur : Option SessionState) (chan : Option NitroliteChannel.Client)
    (depositUsdc : ℚ) (uuid uuidChan uuidSig ts : String) :
    Except String (SessionState × Option NitroliteChannel.Client) :=
  match cur with
  | some st =>
    if st.status = .active then
      .error "A session is already active. Close it before opening a new one."
    else openSessionFresh chan depositUsdc uuid uuidChan uuidSig ts
  | none => openSessionFresh chan depositUsdc uuid uuidChan uuidSig ts
where
  openSessionFresh (chan : Option NitroliteChannel.Client) (depositUsdc : ℚ)
      (uuid uuidChan uuidSig ts : String) :
      Except String (SessionState × Option NitroliteChannel.Client) :=
    let st := openState depositUsdc ("session-" ++ uuid) ts
    let chan' := match chan with
      | none => none
      | some c =>
        let c1 := NitroliteChannel.connect c
        match NitroliteChannel.openChannel c1 st.balances uuidChan uuidSig ts with
        | .ok (c2, _) => some c2
        | .error _ => some c1
    .ok (st, chan')

/-- `SessionManager.getStatus` (`src/session/manager.ts:124-126`):
`this.session?.status ?? "settled"`. -/
def getStatus (session : Option SessionState) : SessionStatus :=
  match session with
  | some st => st.status
  | none => .settled

/-- The in-memory part of `SessionManager.applySwap`
(`src/session/manager.ts:144-177`): the guards (`assertActive`, both balance
entries present, sufficiency), then the balance delta, PnL update, and the
`history.push`.  When `tokenOut = tokenIn` the two lookups alias the same
object in JS; the `balanceOutCur` read reproduces that aliasing. -/
def applySwapCore (session : SessionState) (tokenIn tokenOut : Asset)
    (amountIn amountOut : ℚ) (proposalId ts : String) :
    Except String (SessionState × SwapResult) :=
  if session.status ≠ .active then .error (assertActiveMsg (some session))
  else match session.balances tokenIn, session.balances tokenOut with
    | some balanceIn, some balanceOut =>
      if balanceIn.amount < amountIn then
        .error ("Insufficient " ++ tokenIn.symbol ++ " balance: have "
          ++ numStr balanceIn.amount ++ ", need " ++ numStr amountIn)
      else
        let balanceIn' := { balanceIn with
          amount := balanceIn.amount - amountIn
          pnl := balanceIn.amount - amountIn - balanceIn.initialAmount }
        let bs1 := session.balances.set tokenIn balanceIn'
        let balanceOutCur := if tokenOut = tokenIn then balanceIn' else balanceOut
        let balanceOut' := { balanceOutCur with
          amount := balanceOutCur.amount + amountOut
          pnl := balanceOutCur.amount + amountOut - balanceOutCur.initialAmount }
        let bs2 := bs1.set tokenOut balanceOut'
        let result : SwapResult :=
          { proposalId := proposalId
            success := true
            amountIn := amountIn
            amountOut := amountOut
            executedPrice := amountOut / amountIn
            executionType := "offchain"
            timestamp := ts }
        .ok ({ session with balances := bs2
                            history := session.history ++ [result] }, result)
    | _, _ =>
      .error ("Missing balance for " ++ tokenIn.symbol ++ " or " ++ tokenOut.symbol)

/-- `SessionManager.applySwap` (`src/session/manager.ts:137-208`): the
in-memory mutation and history append, then — when a channel is configured —
`channel.updateState` wrapped in `try/catch` whose failure is only logged
(`log.warn("Failed to update channel state", ...)`); the mutation is kept
and the successful `SwapResult` returned either way. -/
def applySwap (session : SessionState) (chan : Option NitroliteChannel.Client)
    (tokenIn tokenOut : Asset) (amountIn amountOut : ℚ)
    (proposalId uuidSig ts : String) :
    Except String (SessionState × Option NitroliteChannel.Client × SwapResult) := do
  let (s', res) ← applySwapCore session tokenIn tokenOut amountIn amountOut proposalId ts
  let chan' := match chan with
    | none => none
    | some c =>
      match NitroliteChannel.updateState c s'.balances uuidSig ts with
      | .ok (c', _) => some c'
      | .error _ => some c
  .ok (s', chan', res)

/-- `SessionManager.close` (`src/session/manager.ts:220-253`): `active →
closing`; channel close failures are caught and logged. -/
def close (session : SessionState) (chan : Option NitroliteChannel.Client)
    (uuidSig ts : String) :
    Except String (SessionState × Option NitroliteChannel.Client) :=
  if session.status ≠ .active then .error (assertActiveMsg (some session))
  else
    let s' := { session with status := .closing }
    let chan' := match chan with
      | none => none
      | some c =>
        match NitroliteChannel.closeChannel c uuidSig ts with
        | .ok (c', _) => some (NitroliteChannel.disconnect c')
        | .error _ => some c
    .ok (s', chan')

/-- `SessionManager.markSettled` (`src/session/manager.ts:261-275`). -/
def markSettled (session : SessionState) (txHash ts : String) :
    Except String SessionState :=
  if session.status ≠ .closing then
    .error ("Cannot settle session in status \"" ++ session.status.str
      ++ "\". Must be \"closing\".")
  else
    .ok { session with status := .settled
                       closedAt := some ts
                       settlementTxHash := some txHash }

end SessionManager

/-! ## Swap simulation (quote oracle) -/

/-- `SwapSimulation` (`src/shared/types.ts`). -/
structure SwapSimulation where
  tokenIn : Asset
  tokenOut : Asset
  amountIn : ℚ
  estimatedAmountOut : ℚ
  priceImpactBps : ℚ
  route : String
  estimatedGas : ℕ
  deriving DecidableEq, Repr

namespace SwapSimulator

/-- `POOL_RESERVES` (`src/mcp-server/swap-simulator.ts`, concatenated into
`src/mcp-server/uniswap-client.test.ts:128-131`): the simulated liquidity
pools, keyed by `"<tokenIn>/<tokenOut>"`.  Only the two USDC/ETH pair keys
exist; any other pair key misses the record. -/
def POOL_RESERVES (tokenIn tokenOut : Asset) : Option (ℚ × ℚ) :=
  match tokenIn, tokenOut with
  | .USDC, .ETH => some (2500000, 1000)
  | .ETH, .USDC => some (1000, 2500000)
  | _, _ => none

/-- `FEE_BPS = 30` — the 0.3% Uniswap fee tier. -/
def FEE_BPS : ℚ := 30

/-- `Number(x.toFixed(8))`: rounding to 8 decimal places.  ECMA-262
`toFixed` picks the integer `n` with `n / 10^8` closest to `x`, the larger
`n` at a tie — that is `⌊x·10^8 + 1/2⌋ / 10^8`, which is Lean's `round`. -/
def toFixed8 (q : ℚ) : ℚ := (round (q * 100000000) : ℚ) / 100000000

/-- `SwapSimulator.simulateLocal` (`src/mcp-server/swap-simulator.ts`,
concatenated into `src/mcp-server/uniswap-client.test.ts:173-223`): look up
the pool (throwing `No liquidity pool found for pair …` when the key is
absent), take the 30-bps fee off the input, apply the constant-product
formula `Δy = (y·Δx)/(x+Δx)`, and return the simulation whose
`estimatedAmountOut` is the output rounded to 8 decimals by
`Number(amountOut.toFixed(8))`.  JS doubles are idealized as exact
rationals; for the quotes the verified properties evaluate, the double and
the exact rational agree to far beyond the 8th decimal, so the rounded
result coincides. -/
def simulateLocal (tokenIn tokenOut : Asset) (amountIn : ℚ) :
    Except String SwapSimulation :=
  match POOL_RESERVES tokenIn tokenOut with
  | none => .error ("No liquidity pool found for pair "
      ++ tokenIn.symbol ++ "/" ++ tokenOut.symbol)
  | some (reserveA, reserveB) =>
    let amountInAfterFee := amountIn * (1 - FEE_BPS / 10000)
    let amountOut := (reserveB * amountInAfterFee) / (reserveA + amountInAfterFee)
    let spotPrice := reserveB / reserveA
    let executionPrice := amountOut / amountIn
    .ok { tokenIn := tokenIn
          tokenOut := tokenOut
          amountIn := amountIn
          estimatedAmountOut := toFixed8 amountOut
          priceImpactBps := (round (|1 - executionPrice / spotPrice| * 10000) : ℚ)
          route := tokenIn.symbol ++ " →[Uniswap v4 0.3%]→ " ++ tokenOut.symbol
          estimatedGas := 0 }

end SwapSimulator

/-! ## MCP tool pipeline (`src/mcp-server/tools.ts`) -/

namespace ToolHandlers

/-- `ToolResponse` (`src/shared/types.ts:163-170`).  The success payload's
`data` object also repeats the proposal and a balances summary; the verified
properties only inspect the carried `SwapResult`, so `data` is embedded as
that result. -/
structure ToolResponse where
  success : Bool
  data : Option SwapResult
  error : Option String
  policyDecision : Option PolicyDecision
  timestamp : String

/-- `errorResponse` (`src/mcp-server/tools.ts:338-347`): every caught error
becomes `{success: false, error: message}`. -/
def errorResponse (message ts : String) : ToolResponse :=
  { success := false, data := none, error := some message
    policyDecision := none, timestamp := ts }

/-- `buildProposal` (`src/mcp-server/tools.ts:314-330`): default slippage 50
bps, DEX `"uniswap-v4"` (`DEX.UNISWAP_V4`). -/
def buildProposal (tokenIn tokenOut : Asset) (amountIn estimatedAmountOut : ℚ)
    (uuid ts : String) : SwapProposal :=
  { id := "prop-" ++ uuid
    tokenIn := tokenIn
    tokenOut := tokenOut
    amountIn := amountIn
    estimatedAmountOut := estimatedAmountOut
    maxSlippageBps := 50
    dex := "uniswap-v4"
    timestamp := ts }

/-- `ToolHandlers.proposeSwap` (`src/mcp-server/tools.ts:163-245`), with the
simulator's outcome passed in as `quote`: validate the pair, simulate, build
the proposal, evaluate the policy (the hard gate; a rejection returns
`Policy rejected: …` with the decision attached and touches no state), then
`SessionManager.applySwap`; any thrown error is caught into an error
response leaving the session and channel as they were. -/
def proposeSwap (cfg : PolicyConfig) (session : Option SessionState)
    (chan : Option NitroliteChannel.Client) (tokenIn tokenOut : Asset)
    (amount : ℚ) (quote : Except String SwapSimulation)
    (uuid uuidSig ts : String) :
    ToolResponse × Option SessionState × Option NitroliteChannel.Client :=
  if tokenIn = tokenOut then
    (errorResponse ("Cannot swap " ++ tokenIn.symbol ++ " to itself") ts, session, chan)
  else match quote with
    | .error e => (errorResponse e ts, session, chan)
    | .ok sim =>
      let proposal := buildProposal tokenIn tokenOut amount sim.estimatedAmountOut uuid ts
      match session with
      | none => (errorResponse "No active session. Call open() first." ts, session, chan)
      | some s =>
        let policyDecision := PolicyEngine.evaluate cfg proposal s.balances ts
        if !policyDecision.approved then
          let reasons := (policyDecision.results.filter (fun r => !r.passed)).map
            fun r => r.rule.name ++ ": " ++ r.reason.getD "undefined"
          ({ success := false
             data := none
             error := some ("Policy rejected: " ++ String.intercalate "; " reasons)
             policyDecision := some policyDecision
             timestamp := ts }, session, chan)
        else
          match SessionManager.applySwap s chan tokenIn tokenOut amount
              sim.estimatedAmountOut proposal.id uuidSig ts with
          | .error e => (errorResponse e ts, session, chan)
          | .ok (s', chan', result) =>
            ({ success := true
               data := some result
               error := none
               policyDecision := some policyDecision
               timestamp := ts }, some s', chan')

end ToolHandlers

/-! ## On-chain guard and wallet (`contracts/src/PolicyGuard.sol`,
`contracts/src/SentinelWallet.sol`) -/

namespace PolicyGuard

/-- The guard's storage.  `settledSessions` is the replay map; addresses and
session ids are opaque strings. -/
structure GuardState where
  maxSettlementUsdc : ℕ
  maxSettlementEth : ℕ
  allowedTokens : List String
  settledSessions : List String
  policyHash : String
  deriving DecidableEq, Repr

/-- `PolicyGuard.validateSettlement` (`contracts/src/PolicyGuard.sol:50-75`):
revert on an already-settled session, on either cap being exceeded, or on a
disallowed token with a positive USDC amount; an EVM revert is the `.error`
branch. -/
def validateSettlement (g : GuardState) (sessionId usdcToken : String)
    (usdcAmount ethAmount : ℕ) : Except String Bool :=
  if g.settledSessions.contains sessionId then .error "Session already settled"
  else if usdcAmount > g.maxSettlementUsdc then .error "ExceedsMaxSettlement"
  else if ethAmount > g.maxSettlementEth then .error "ExceedsMaxSettlement"
  else if usdcAmount > 0 && !(g.allowedTokens.contains usdcToken) then
    .error "AssetNotAllowed"
  else .ok true

/-- `PolicyGuard.markSettled` (`contracts/src/PolicyGuard.sol:78-81`). -/
def markSettled (g : GuardState) (sessionId : String) : GuardState :=
  { g with settledSessions := sessionId :: g.settledSessions }

end PolicyGuard

namespace SentinelWallet

/-- The `SessionSettled` event
(`emit SessionSettled(sessionId, msg.sender, usdcAmount, ethAmount,
block.timestamp)`). -/
structure SessionSettledEvent where
  sessionId : String
  operator : String
  usdcDelta : ℕ
  ethDelta : ℕ
  timestamp : ℕ
  deriving DecidableEq, Repr

/-- The wallet's storage relevant to settlement. -/
structure WalletState where
  owner : String
  entryPoint : String
  guard : PolicyGuard.GuardState
  nonce : ℕ
  deriving DecidableEq, Repr

/-- `SentinelWallet.settleSession` (`contracts/src/SentinelWallet.sol`,
sources lines 298-318): `onlyEntryPointOrOwner`, then
`validateSettlement` → `markSettled` → `emit SessionSettled`, all in one
transaction — a revert anywhere (the `.error` branch) leaves no state change
and emits nothing. -/
def settleSession (w : WalletState) (sender sessionId usdcToken : String)
    (usdcAmount ethAmount timestamp : ℕ) :
    Except String (WalletState × SessionSettledEvent) :=
  if sender ≠ w.entryPoint ∧ sender ≠ w.owner then
    .error "SentinelWallet: not entrypoint or owner"
  else do
    let _ ← PolicyGuard.validateSettlement w.guard sessionId usdcToken usdcAmount ethAmount
    let g' := PolicyGuard.markSettled w.guard sessionId
    .ok ({ w with guard := g' },
         { sessionId := sessionId, operator := sender, usdcDelta := usdcAmount
           ethDelta := ethAmount, timestamp := timestamp })

end SentinelWallet

/-! ## Execution traces

Sequences of operations against the session manager and the channel ledger,
used to state reachability invariants (spec §8).  Each step passes the
call's arguments plus the run-time nondeterminism (`randomUUID()`,
timestamps) explicitly; a thrown step leaves the state as it was. -/

/-- One `applySwap` call: the arguments `proposeSwap` passes after an
approved policy decision. -/
structure SwapCall where
  tokenIn : Asset
  tokenOut : Asset
  amountIn : ℚ
  amountOut : ℚ
  proposalId : String
  uuidSig : String
  ts : String

/-- Run a list of `applySwap` calls; the third component collects the
accepted calls (those whose `applySwap` did not throw), in order — they
correspond one-to-one to the `SwapResult`s appended to the session
history. -/
def runSwaps (s : SessionState) (chan : Option NitroliteChannel.Client) :
    List SwapCall → SessionState × Option NitroliteChannel.Client × List SwapCall
  | [] => (s, chan, [])
  | call :: rest =>
    match SessionManager.applySwap s chan call.tokenIn call.tokenOut
        call.amountIn call.amountOut call.proposalId call.uuidSig call.ts with
    | .ok (s', chan', _) =>
      let r := runSwaps s' chan' rest
      (r.1, r.2.1, call :: r.2.2)
    | .error _ => runSwaps s chan rest

/-- The signed per-asset delta of a list of swaps: `-amountIn` on the input
side, `+amountOut` on the output side (spec §8). -/
def netDelta (calls : List SwapCall) (a : Asset) : ℚ :=
  (calls.map fun call =>
    (if call.tokenIn = a then -call.amountIn else 0)
      + (if call.tokenOut = a then call.amountOut else 0)).sum

/-- One operation against the channel ledger client. -/
inductive ChanOp : Type
  | connect
  | disconnect
  | openCh (bal : Balances) (uuid uuidSig ts : String)
  | update (bal : Balances) (uuidSig ts : String)
  | closeCh (uuidSig ts : String)

/-- Run channel operations; a thrown operation leaves the client as it
was. -/
def runChanOps (c : NitroliteChannel.Client) : List ChanOp → NitroliteChannel.Client
  | [] => c
  | .connect :: rest => runChanOps (NitroliteChannel.connect c) rest
  | .disconnect :: rest => runChanOps (NitroliteChannel.disconnect c) rest
  | .openCh bal uuid uuidSig ts :: rest =>
    runChanOps (match NitroliteChannel.openChannel c bal uuid uuidSig ts with
      | .ok (c2, _) => c2
      | .error _ => c) rest
  | .update bal uuidSig ts :: rest =>
    runChanOps (match NitroliteChannel.updateState c bal uuidSig ts with
      | .ok (c2, _) => c2
      | .error _ => c) rest
  | .closeCh uuidSig ts :: rest =>
    runChanOps (match NitroliteChannel.closeChannel c uuidSig ts with
      | .ok (c2, _) => c2
      | .error _ => c) rest

/-- What the ledger actually attaches to every accepted state: exactly two
entries — the operator's deterministic sha-256 "signature" over the
`stateHash` and the simulated broker placeholder `broker-sig-<uuid>`. -/
def WellSigned (signerPrivateKey : String) (st : NitroliteChannel.ChannelState) : Prop :=
  st.signatures.length = 2 ∧
  st.signatures.getD 0 "" = NitroliteChannel.signState signerPrivateKey st ∧
  ∃ u, st.signatures.getD 1 "" = "broker-sig-" ++ u

/-! ## Concrete execution fixtures (for witnesses and counterexamples) -/

/-- A demo broker configuration. -/
def cfg0 : NitroliteChannel.Config :=
  { brokerUrl := "wss://broker.example", signerPrivateKey := "0xdemo-operator-key"
    brokerAddress := "0xbroker" }

/-- Connect, then open a channel over a fresh 1000-USDC session's
balances. -/
def demoOps : List ChanOp :=
  [.connect,
   .openCh (SessionManager.openState 1000 "session-1" "t0").balances "chan1" "sig1" "t1"]

/-- The channel session reached by `demoOps`. -/
def demoChannel : NitroliteChannel.ChannelSession :=
  match (runChanOps (NitroliteChannel.init cfg0) demoOps).channel with
  | some ch => ch
  | none =>
    { channelId := "", status := .prefund, participants := ("", "")
      currentState := default, stateHistory := [], openedAt := "", closedAt := none }

/-- A channel client whose `updateState` always throws: the stubbed
`assertConnected` fails because `isConnected` is `false` (the state after
`disconnect`, or before any `connect`). -/
def brokenClient : NitroliteChannel.Client := NitroliteChannel.init cfg0

/-- A fresh 1000-USDC session moved to `closing` (the state after
`close()`). -/
def closingSession : SessionState :=
  { SessionManager.openState 1000 "session-1" "t0" with status := .closing }

/-- A concrete simulator outcome handed to `proposeSwap` fixtures. -/
def demoSim : SwapSimulation :=
  { tokenIn := .USDC, tokenOut := .ETH, amountIn := 50
    estimatedAmountOut := 1/50, priceImpactBps := 0
    route := "Uniswap v4 (local x*y=k)", estimatedGas := 0 }

/-- `DEFAULT_POLICY` with the `allowedAssets` array in the opposite order —
the same configuration as a set. -/
def reorderedPolicy : PolicyConfig :=
  { DEFAULT_POLICY with allowedAssets := [.ETH, .USDC] }

/-- An `applySwap` run against an active 1000-USDC session whose configured
channel client throws on `updateState` (20 USDC → 0.008 ETH). -/
def c3run : Except String
    (SessionState × Option NitroliteChannel.Client × SwapResult) :=
  SessionManager.applySwap (SessionManager.openState 1000 "session-1" "t0")
    (some brokenClient) .USDC .ETH 20 (1/125) "prop-1" "sig2" "t2"

/-! # Theorems -/

/-! ## Sanity vectors for the SHA-256 embedding -/

/-- Known-answer test for the SHA-256 embedding (FIPS 180-2 vector). -/
theorem sha256_abc_vector :
    SHA256.sha256hex (strBytes "abc")
      = "ba7816bf8f01cfea414140de5dae2223b00361a396177a9cb410ff61f20015ad" := by
  decide

/-- Committed vector for the policy fingerprint of `DEFAULT_POLICY`
(cross-checked against an independent SHA-256 implementation on the
serialization
`{"allowedAssets":["USDC","ETH"],"allowedDexes":["uniswap-v4"],"maxSlippageBps":50,"maxTradePercent":2}`). -/
theorem policyHash_default_vector :
    computePolicyHash DEFAULT_POLICY
      = "0x96df5890b49362f385d2676290a3f96eaabf81604c8d9ee2562af7e5bc7d85a2" := by
  decide

/-! ## Policy engine rule shape -/

theorem checkMaxTradeSize_rule (cfg : PolicyConfig) (p : SwapProposal) (b : Balances) :
    (PolicyEngine.checkMaxTradeSize cfg p b).rule = PolicyEngine.MAX_TRADE_SIZE := by
  cases h : b p.tokenIn <;> simp [PolicyEngine.checkMaxTradeSize, h]

/-- C6: `evaluate` always returns exactly the four rule results, in the
fixed order `max-trade-size, allowed-dex, allowed-assets, max-slippage`, and
its `approved` field is the conjunction of `passed` over all results.  The
embedding of `evaluate` is a total Lean function — every operation the
source performs on the way is total, which is the "never throws" part of the
claim. -/
theorem evaluate_decision_shape (cfg : PolicyConfig) (p : SwapProposal)
    (balances : Balances) (now : String) :
    (PolicyEngine.evaluate cfg p balances now).results.length = 4 ∧
    (PolicyEngine.evaluate cfg p balances now).results.map (fun r => r.rule.id)
      = ["max-trade-size", "allowed-dex", "allowed-assets", "max-slippage"] ∧
    ((PolicyEngine.evaluate cfg p balances now).approved = true ↔
      ∀ r ∈ (PolicyEngine.evaluate cfg p balances now).results, r.passed = true) := by
  refine ⟨rfl, ?_, ?_⟩
  · simp only [PolicyEngine.evaluate, List.map_cons, List.map_nil,
      checkMaxTradeSize_rule]
    rfl
  · simp only [PolicyEngine.evaluate, List.all_eq_true]

/-! ## C10 — `getStatus` on a never-opened manager -/

/-- C10: with no session ever opened (`this.session` is `null`),
`getStatus()` returns `"settled"` — `this.session?.status ?? "settled"`
falls back to `"settled"` (and the `SessionStatus` union has no `"none"`
member at all). -/
theorem getStatus_none_is_settled :
    SessionManager.getStatus none = SessionStatus.settled := rfl

/-! ## C9 — the local constant-product quote -/

/-- The concrete 20-USDC quote: the raw constant-product output is
`997000/125000997 ≈ 0.0079759364`, and `Number(amountOut.toFixed(8))`
rounds it to exactly `0.00797594`. -/
theorem simulateLocal_usdc_eth_20 :
    (SwapSimulator.simulateLocal .USDC .ETH 20).map (fun s => s.estimatedAmountOut)
      = .ok (797594 / 100000000) := by
  have hraw : ((1000 : ℚ) * (20 * (1 - 30 / 10000)) / (2500000 + 20 * (1 - 30 / 10000)))
      = 997000 / 125000997 := by norm_num
  have hfloor : (⌊(997000 / 125000997 : ℚ) * 100000000 + 1 / 2⌋ : ℤ) = 797594 := by
    rw [Int.floor_eq_iff]
    constructor <;> norm_num
  simp only [SwapSimulator.simulateLocal, SwapSimulator.POOL_RESERVES,
    SwapSimulator.FEE_BPS, SwapSimulator.toFixed8, Except.map, hraw, round_eq, hfloor]
  norm_num

/-- C9 counterexample: the local quote for 20 USDC → ETH is exactly
`0.00797594` ETH — the raw constant-product output
`997000/125000997 ≈ 0.0079759364` rounded to 8 decimals by
`Number(amountOut.toFixed(8))` — and *not* approximately `0.00797606`: the
claimed digits are too large by more than `10⁻⁷`, i.e. wrong already in the
sixth significant digit. -/
theorem simulateLocal_claimed_value_counterexample :
    (SwapSimulator.simulateLocal .USDC .ETH 20).map (fun s => s.estimatedAmountOut)
      = .ok (797594 / 100000000) ∧
    (797594 / 100000000 : ℚ) < 797606 / 100000000 - 1 / 10000000 :=
  ⟨simulateLocal_usdc_eth_20, by norm_num⟩

/-- C9 amended: the local quote computes
`amountInAfterFee = amountIn * (1 - fee)` at the 30-bps fee and
`amountOut = (reserveOut * amountInAfterFee) / (reserveIn + amountInAfterFee)`,
and its `estimatedAmountOut` is that output rounded to 8 decimal places by
`Number(amountOut.toFixed(8))`; with reserves (2,500,000 USDC, 1,000 ETH),
simulating 20 USDC → ETH yields exactly `0.00797594` ETH (the raw
`997000/125000997 = 0.0079759364…` rounded), not `0.00797606`. -/
theorem simulateLocal_formula_and_value :
    (∀ amountIn : ℚ,
      (SwapSimulator.simulateLocal .USDC .ETH amountIn).map
          (fun s => s.estimatedAmountOut)
        = .ok (SwapSimulator.toFixed8
            (1000 * (amountIn * (1 - 30 / 10000))
              / (2500000 + amountIn * (1 - 30 / 10000))))) ∧
    (SwapSimulator.simulateLocal .USDC .ETH 20).map (fun s => s.estimatedAmountOut)
      = .ok (797594 / 100000000) ∧
    (797593 / 100000000 : ℚ) < 997000 / 125000997 ∧
    (997000 / 125000997 : ℚ) < 797594 / 100000000 := by
  refine ⟨fun amountIn => ?_, simulateLocal_usdc_eth_20, by norm_num, by norm_num⟩
  simp [SwapSimulator.simulateLocal, SwapSimulator.POOL_RESERVES,
    SwapSimulator.FEE_BPS, Except.map]

/-! ## C4 — the policy fingerprint -/

/-- C4 counterexample: `DEFAULT_POLICY` and the same configuration with the
`allowedAssets` array reversed are operationally identical (the array fields
are equal as sets, all scalar fields are equal), yet `computePolicyHash`
yields different digests — `JSON.stringify(config, Object.keys(config).sort())`
sorts only the *top-level keys*; the replacer array never sorts the
`allowedDexes` / `allowedAssets` arrays. -/
theorem policyHash_set_order_counterexample :
    DEFAULT_POLICY.allowedAssets.Perm reorderedPolicy.allowedAssets ∧
    DEFAULT_POLICY.maxTradePercent = reorderedPolicy.maxTradePercent ∧
    DEFAULT_POLICY.maxSlippageBps = reorderedPolicy.maxSlippageBps ∧
    DEFAULT_POLICY.allowedDexes = reorderedPolicy.allowedDexes ∧
    computePolicyHash DEFAULT_POLICY ≠ computePolicyHash reorderedPolicy := by
  refine ⟨?_, rfl, rfl, rfl, ?_⟩
  · decide
  · decide

/-- C4 amended: the policy hash is SHA-256 of the canonical serialization
whose *top-level* keys are sorted lexicographically but whose array fields
keep their stored order; hence two configurations hash identically whenever
their serializations agree (in particular whenever they are field-for-field
identical, whatever order the fields were written in), while set-equal but
differently ordered `allowedAssets`/`allowedDexes` may hash differently. -/
theorem policyHash_serialization_congruence (p q : PolicyConfig)
    (h : serializePolicy p = serializePolicy q) :
    computePolicyHash p = computePolicyHash q := by
  unfold computePolicyHash
  rw [h]

/-- Witness for `policyHash_serialization_congruence` at `DEFAULT_POLICY`. -/
theorem policyHash_serialization_congruence_witness :
    computePolicyHash DEFAULT_POLICY = computePolicyHash DEFAULT_POLICY :=
  policyHash_serialization_congruence DEFAULT_POLICY DEFAULT_POLICY rfl

/-! ## C2 — settlement replay safety and atomicity -/

/-- `validateSettlement` can only succeed with `true`. -/
theorem validateSettlement_ok_true (g : PolicyGuard.GuardState)
    (sessionId usdcToken : String) (usdcAmount ethAmount : ℕ) (b : Bool)
    (h : PolicyGuard.validateSettlement g sessionId usdcToken usdcAmount ethAmount = .ok b) :
    b = true := by
  unfold PolicyGuard.validateSettlement at h
  repeat' split at h
  all_goals first | cases h; rfl | cases h

/-- C2: (i) replay safety — for an authorized sender, `settleSession` on a
session id already in `settledSessions` reverts with "Session already
settled" (the guard's `validateSettlement` check), so the transaction
produces no state change and emits no `SessionSettled` event; (ii) atomicity
— any successful `settleSession` has passed `validateSettlement` on the
pre-state and has the session marked settled in the post-state, both inside
the same transaction. -/
theorem settleSession_replay_safe_and_atomic (w : SentinelWallet.WalletState)
    (sender sessionId usdcToken : String) (usdcAmount ethAmount timestamp : ℕ)
    (hauth : sender = w.entryPoint ∨ sender = w.owner) :
    (w.guard.settledSessions.contains sessionId = true →
      SentinelWallet.settleSession w sender sessionId usdcToken usdcAmount
          ethAmount timestamp = .error "Session already settled") ∧
    (∀ w' ev, SentinelWallet.settleSession w sender sessionId usdcToken usdcAmount
          ethAmount timestamp = .ok (w', ev) →
      PolicyGuard.validateSettlement w.guard sessionId usdcToken usdcAmount
          ethAmount = .ok true ∧
      w'.guard.settledSessions.contains sessionId = true) := by
  have hcond : ¬ (sender ≠ w.entryPoint ∧ sender ≠ w.owner) := by
    rcases hauth with h | h
    · exact fun hc => hc.1 h
    · exact fun hc => hc.2 h
  constructor
  · intro hset
    unfold SentinelWallet.settleSession
    rw [if_neg hcond]
    unfold PolicyGuard.validateSettlement
    rw [if_pos hset]
    rfl
  · intro w' ev h
    unfold SentinelWallet.settleSession at h
    rw [if_neg hcond] at h
    cases hv : PolicyGuard.validateSettlement w.guard sessionId usdcToken
        usdcAmount ethAmount with
    | error e =>
      rw [hv] at h
      cases h
    | ok b =>
      have hb : b = true := validateSettlement_ok_true _ _ _ _ _ _ hv
      subst hb
      rw [hv] at h
      cases h
      refine ⟨rfl, ?_⟩
      simp [PolicyGuard.markSettled]

/-! ## Generic helper lemmas -/

/-- Two strings whose first characters differ are different. -/
theorem ne_of_head_char (s t : String) (c d : Char) (hc : s.data.head? = some c)
    (hd : t.data.head? = some d) (hne : c ≠ d) : s ≠ t := by
  intro h
  rw [h, hd] at hc
  cases hc
  exact hne rfl

/-- `do`-bind on a successful `Except` is application. -/
theorem except_ok_bind {ε α β : Type} (a : α) (f : α → Except ε β) :
    (Except.ok a : Except ε α) >>= f = f a := rfl

theorem usdc_eq_eth_false : (Asset.USDC = Asset.ETH) = False := eq_false (by decide)

theorem eth_eq_usdc_false : (Asset.ETH = Asset.USDC) = False := eq_false (by decide)

/-- Reduction of `proposeSwap` on the rejection path: with a valid pair, a
successful quote and a non-approved decision, the call returns the
`Policy rejected` response with the decision attached and the state
untouched. -/
theorem proposeSwap_rejected_reduction (cfg : PolicyConfig) (s : SessionState)
    (chan : Option NitroliteChannel.Client) (tokenIn tokenOut : Asset)
    (amount : ℚ) (sim : SwapSimulation) (uuid uuidSig ts : String)
    (hne : tokenIn ≠ tokenOut)
    (hrej : (PolicyEngine.evaluate cfg
        (ToolHandlers.buildProposal tokenIn tokenOut amount sim.estimatedAmountOut uuid ts)
        s.balances ts).approved = false) :
    ToolHandlers.proposeSwap cfg (some s) chan tokenIn tokenOut amount (.ok sim)
        uuid uuidSig ts
      = ({ success := false
           data := none
           error := some ("Policy rejected: " ++ String.intercalate "; "
             (((PolicyEngine.evaluate cfg
                 (ToolHandlers.buildProposal tokenIn tokenOut amount
                   sim.estimatedAmountOut uuid ts)
                 s.balances ts).results.filter (fun r => !r.passed)).map
               fun r => r.rule.name ++ ": " ++ r.reason.getD "undefined"))
           policyDecision := some (PolicyEngine.evaluate cfg
               (ToolHandlers.buildProposal tokenIn tokenOut amount
                 sim.estimatedAmountOut uuid ts)
               s.balances ts)
           timestamp := ts }, some s, chan) := by
  unfold ToolHandlers.proposeSwap
  rw [if_neg hne]
  simp only [hrej, Bool.not_false, if_true]

/-! ## C1 — rejected proposals mutate nothing -/

/-- C1: whenever the policy decision for a proposal is not approved,
`proposeSwap` records the rejection (`success: false`, an error starting
`Policy rejected: `, the full decision attached) and returns with the
session and channel exactly as they were: no balance mutation, no history
append, no new channel state. -/
theorem proposeSwap_rejected_no_mutation (cfg : PolicyConfig) (s : SessionState)
    (chan : Option NitroliteChannel.Client) (tokenIn tokenOut : Asset)
    (amount : ℚ) (sim : SwapSimulation) (uuid uuidSig ts : String)
    (hne : tokenIn ≠ tokenOut)
    (hrej : (PolicyEngine.evaluate cfg
        (ToolHandlers.buildProposal tokenIn tokenOut amount sim.estimatedAmountOut uuid ts)
        s.balances ts).approved = false) :
    (ToolHandlers.proposeSwap cfg (some s) chan tokenIn tokenOut amount (.ok sim)
        uuid uuidSig ts).1.success = false ∧
    (∃ msg, (ToolHandlers.proposeSwap cfg (some s) chan tokenIn tokenOut amount (.ok sim)
        uuid uuidSig ts).1.error = some ("Policy rejected: " ++ msg)) ∧
    (ToolHandlers.proposeSwap cfg (some s) chan tokenIn tokenOut amount (.ok sim)
        uuid uuidSig ts).1.policyDecision
      = some (PolicyEngine.evaluate cfg
          (ToolHandlers.buildProposal tokenIn tokenOut amount sim.estimatedAmountOut uuid ts)
          s.balances ts) ∧
    (ToolHandlers.proposeSwap cfg (some s) chan tokenIn tokenOut amount (.ok sim)
        uuid uuidSig ts).2 = (some s, chan) := by
  rw [proposeSwap_rejected_reduction cfg s chan tokenIn tokenOut amount sim
    uuid uuidSig ts hne hrej]
  exact ⟨rfl, ⟨_, rfl⟩, rfl, rfl⟩

/-- Witness for `proposeSwap_rejected_no_mutation`: 50 USDC → ETH on a fresh
1000-USDC session under the default policy is rejected by the max-trade-size
rule (50 > 2% × 1000 = 20) and leaves the state untouched. -/
theorem proposeSwap_rejected_no_mutation_witness :
    (ToolHandlers.proposeSwap DEFAULT_POLICY
        (some (SessionManager.openState 1000 "session-1" "t0")) none
        .USDC .ETH 50 (.ok demoSim) "u1" "u2" "t1").1.success = false ∧
    (∃ msg, (ToolHandlers.proposeSwap DEFAULT_POLICY
        (some (SessionManager.openState 1000 "session-1" "t0")) none
        .USDC .ETH 50 (.ok demoSim) "u1" "u2" "t1").1.error
      = some ("Policy rejected: " ++ msg)) ∧
    (ToolHandlers.proposeSwap DEFAULT_POLICY
        (some (SessionManager.openState 1000 "session-1" "t0")) none
        .USDC .ETH 50 (.ok demoSim) "u1" "u2" "t1").1.policyDecision
      = some (PolicyEngine.evaluate DEFAULT_POLICY
          (ToolHandlers.buildProposal .USDC .ETH 50 demoSim.estimatedAmountOut "u1" "t1")
          (SessionManager.openState 1000 "session-1" "t0").balances "t1") ∧
    (ToolHandlers.proposeSwap DEFAULT_POLICY
        (some (SessionManager.openState 1000 "session-1" "t0")) none
        .USDC .ETH 50 (.ok demoSim) "u1" "u2" "t1").2
      = (some (SessionManager.openState 1000 "session-1" "t0"), none) :=
  proposeSwap_rejected_no_mutation DEFAULT_POLICY
    (SessionManager.openState 1000 "session-1" "t0") none .USDC .ETH 50 demoSim
    "u1" "u2" "t1" (by simp)
    (by norm_num [PolicyEngine.evaluate, PolicyEngine.checkMaxTradeSize,
      PolicyEngine.checkAllowedDex, PolicyEngine.checkAllowedAssets,
      PolicyEngine.checkMaxSlippage, ToolHandlers.buildProposal,
      SessionManager.openState, DEFAULT_POLICY])

/-! ## C8 — proposing after close -/

/-- C8 counterexample: on a session already moved to `closing` by `close()`,
a proposal that the policy *rejects* (50 USDC with a 20-USDC cap) yields the
policy rejection (`Policy rejected: …` with the decision attached), not the
session-state error — the active-status check only runs inside `applySwap`,
which rejected proposals never reach. -/
theorem proposeSwap_after_close_rejected_counterexample :
    (ToolHandlers.proposeSwap DEFAULT_POLICY (some closingSession) none
        .USDC .ETH 50 (.ok demoSim) "u1" "u2" "t1").1.error
      ≠ some (SessionManager.assertActiveMsg (some closingSession)) ∧
    (∃ msg, (ToolHandlers.proposeSwap DEFAULT_POLICY (some closingSession) none
        .USDC .ETH 50 (.ok demoSim) "u1" "u2" "t1").1.error
      = some ("Policy rejected: " ++ msg)) ∧
    (ToolHandlers.proposeSwap DEFAULT_POLICY (some closingSession) none
        .USDC .ETH 50 (.ok demoSim) "u1" "u2" "t1").1.policyDecision.isSome = true := by
  have hne : Asset.USDC ≠ Asset.ETH := by decide
  have hrej : (PolicyEngine.evaluate DEFAULT_POLICY
      (ToolHandlers.buildProposal .USDC .ETH 50 demoSim.estimatedAmountOut "u1" "t1")
      closingSession.balances "t1").approved = false := by
    norm_num [PolicyEngine.evaluate, PolicyEngine.checkMaxTradeSize,
      PolicyEngine.checkAllowedDex, PolicyEngine.checkAllowedAssets,
      PolicyEngine.checkMaxSlippage, ToolHandlers.buildProposal,
      closingSession, SessionManager.openState, DEFAULT_POLICY]
  rw [proposeSwap_rejected_reduction DEFAULT_POLICY closingSession none
    .USDC .ETH 50 demoSim "u1" "u2" "t1" hne hrej]
  refine ⟨?_, ⟨_, rfl⟩, rfl⟩
  intro h
  exact absurd (Option.some.inj h) (ne_of_head_char _ _ 'P' 'S' rfl rfl (by decide))

/-- C8 amended: after `close()` the session status is no longer `active`,
and a proposal that the policy *approves* fails with the session-state error
from `assertActive` (surfaced through the tool boundary as an error
response), leaving the state unchanged; a proposal the policy rejects
instead yields an ordinary policy rejection.  The state error is therefore
raised only for proposals that pass policy — not "regardless of policy". -/
theorem proposeSwap_inactive_approved_state_error (cfg : PolicyConfig)
    (s : SessionState) (chan : Option NitroliteChannel.Client)
    (tokenIn tokenOut : Asset) (amount : ℚ) (sim : SwapSimulation)
    (uuid uuidSig ts : String)
    (hne : tokenIn ≠ tokenOut)
    (hst : s.status ≠ .active)
    (happ : (PolicyEngine.evaluate cfg
        (ToolHandlers.buildProposal tokenIn tokenOut amount sim.estimatedAmountOut uuid ts)
        s.balances ts).approved = true) :
    ToolHandlers.proposeSwap cfg (some s) chan tokenIn tokenOut amount (.ok sim)
        uuid uuidSig ts
      = (ToolHandlers.errorResponse (SessionManager.assertActiveMsg (some s)) ts,
         some s, chan) := by
  unfold ToolHandlers.proposeSwap
  rw [if_neg hne]
  simp only [happ, Bool.not_true, if_false]
  unfold SessionManager.applySwap SessionManager.applySwapCore
  rw [if_pos hst]
  rfl

/-- Witness for `proposeSwap_inactive_approved_state_error`: 10 USDC → ETH
on the `closing` session passes all four default-policy rules, so the call
fails with the `Session is not active (current: "closing")` state error. -/
theorem proposeSwap_inactive_approved_state_error_witness :
    ToolHandlers.proposeSwap DEFAULT_POLICY (some closingSession) none
        .USDC .ETH 10 (.ok demoSim) "u1" "u2" "t1"
      = (ToolHandlers.errorResponse (SessionManager.assertActiveMsg (some closingSession)) "t1",
         some closingSession, none) :=
  proposeSwap_inactive_approved_state_error DEFAULT_POLICY closingSession none
    .USDC .ETH 10 demoSim "u1" "u2" "t1" (by simp) (by simp [closingSession])
    (by norm_num [PolicyEngine.evaluate, PolicyEngine.checkMaxTradeSize,
      PolicyEngine.checkAllowedDex, PolicyEngine.checkAllowedAssets,
      PolicyEngine.checkMaxSlippage, ToolHandlers.buildProposal,
      closingSession, SessionManager.openState, DEFAULT_POLICY])

/-! ## C3 — channel failure during an approved swap -/

/-- C3 counterexample: an approved 20-USDC swap applied while the configured
channel client's `updateState` throws (`assertConnected` fails) is *not*
rolled back and returns no retryable error: `applySwap` resolves
successfully, the USDC balance is left at 980 (not restored to 1000), the
history gained the swap, and the channel client is unchanged — the balance
sheet and the channel's last co-signed state now diverge. -/
theorem applySwap_no_rollback_counterexample :
    (c3run.toOption.map fun x => (x.1.balances .USDC).map SessionBalance.amount)
      = some (some 980) ∧
    (c3run.toOption.map fun x => x.1.history.length) = some 1 ∧
    (c3run.toOption.map fun x => x.2.1) = some (some brokenClient) ∧
    (c3run.toOption.map fun x =>
        NitroliteChannel.updateState brokenClient x.1.balances "sig2" "t2")
      = some (.error "Not connected to Nitrolite broker. Call connect() first.") := by
  refine ⟨?_, ?_, ?_, ?_⟩ <;>
    norm_num [c3run, SessionManager.applySwap, SessionManager.applySwapCore,
      SessionManager.openState, Balances.set, NitroliteChannel.updateState,
      brokenClient, NitroliteChannel.init, Except.toOption, except_ok_bind,
      usdc_eq_eth_false, eth_eq_usdc_false, SessionManager.assertActiveMsg]

/-- C3 amended: when the channel's state update fails during an approved
swap, the error is caught and only logged (`log.warn`): the in-memory
mutation is **kept**, the history entry is kept, a successful `SwapResult`
is returned, and the channel client is left at its prior state — the
session balance sheet and the channel's last co-signed state are allowed to
diverge.  (`hconn` exhibits the failure mode: a client whose broker
connection is down throws in `assertConnected` for any balances.) -/
theorem applySwap_keeps_mutation_on_channel_failure
    (session : SessionState) (c : NitroliteChannel.Client)
    (tokenIn tokenOut : Asset) (amountIn amountOut : ℚ)
    (proposalId uuidSig ts : String) (bIn bOut : SessionBalance)
    (hact : session.status = .active)
    (hne : tokenOut ≠ tokenIn)
    (hin : session.balances tokenIn = some bIn)
    (hout : session.balances tokenOut = some bOut)
    (hsuff : ¬ bIn.amount < amountIn)
    (hconn : c.isConnected = false) :
    ∃ res, SessionManager.applySwap session (some c) tokenIn tokenOut amountIn
        amountOut proposalId uuidSig ts
      = .ok ({ session with
                balances := (session.balances.set tokenIn
                    { bIn with amount := bIn.amount - amountIn
                               pnl := bIn.amount - amountIn - bIn.initialAmount }).set tokenOut
                    { bOut with amount := bOut.amount + amountOut
                                pnl := bOut.amount + amountOut - bOut.initialAmount }
                history := session.history ++ [res] },
             some c, res) ∧
      res.success = true := by
  refine ⟨{ proposalId := proposalId, success := true, amountIn := amountIn
            amountOut := amountOut, executedPrice := amountOut / amountIn
            executionType := "offchain", timestamp := ts }, ?_, rfl⟩
  unfold SessionManager.applySwap SessionManager.applySwapCore
  rw [if_neg (fun hcontra => hcontra hact), hin, hout]
  simp only [if_neg hsuff, if_neg hne]
  unfold NitroliteChannel.updateState
  rw [hconn]
  rfl

/-- Witness for `applySwap_keeps_mutation_on_channel_failure` at the
concrete disconnected client. -/
theorem applySwap_keeps_mutation_on_channel_failure_witness :
    ∃ res, SessionManager.applySwap (SessionManager.openState 1000 "session-1" "t0")
        (some brokenClient) .USDC .ETH 20 (1/125) "prop-1" "sig2" "t2"
      = .ok ({ SessionManager.openState 1000 "session-1" "t0" with
                balances := ((SessionManager.openState 1000 "session-1" "t0").balances.set .USDC
                    { asset := .USDC, amount := 1000 - 20, initialAmount := 1000
                      pnl := 1000 - 20 - 1000 }).set .ETH
                    { asset := .ETH, amount := 0 + 1/125, initialAmount := 0
                      pnl := 0 + 1/125 - 0 }
                history := (SessionManager.openState 1000 "session-1" "t0").history ++ [res] },
             some brokenClient, res) ∧
      res.success = true :=
  applySwap_keeps_mutation_on_channel_failure
    (SessionManager.openState 1000 "session-1" "t0") brokenClient .USDC .ETH
    20 (1/125) "prop-1" "sig2" "t2"
    { asset := .USDC, amount := 1000, initialAmount := 1000, pnl := 0 }
    { asset := .ETH, amount := 0, initialAmount := 0, pnl := 0 }
    rfl (by simp) rfl rfl (by norm_num) rfl

/-! ## C7 — history deltas account for balances -/

/-- Pointwise effect of a successful `applySwapCore` on the balance map:
every present entry stays present, keeps its `initialAmount`, and moves by
exactly the signed delta of the executed swap (`-amountIn` on the input
side, `+amountOut` on the output side — combined when the sides alias). -/
theorem applySwapCore_ok_balance (session : SessionState) (tokenIn tokenOut : Asset)
    (amountIn amountOut : ℚ) (proposalId ts : String) (s' : SessionState)
    (res : SwapResult)
    (h : SessionManager.applySwapCore session tokenIn tokenOut amountIn amountOut
        proposalId ts = .ok (s', res))
    (a : Asset) (b : SessionBalance) (hb : session.balances a = some b) :
    (s'.balances a).map SessionBalance.initialAmount = some b.initialAmount ∧
    (s'.balances a).map SessionBalance.amount
      = some (b.amount + ((if tokenIn = a then -amountIn else 0)
          + (if tokenOut = a then amountOut else 0))) := by
  unfold SessionManager.applySwapCore at h
  split at h
  · cases h
  split at h <;> try cases h
  next balanceIn balanceOut hin hout =>
    split at h
    · cases h
    next hsuff =>
      cases h
      cases a <;> cases tokenIn <;> cases tokenOut <;>
        constructor <;> simp_all [Balances.set] <;> ring

/-- A successful `applySwapCore` appends exactly one history entry carrying
the executed amounts. -/
theorem applySwapCore_ok_history (session : SessionState) (tokenIn tokenOut : Asset)
    (amountIn amountOut : ℚ) (proposalId ts : String) (s' : SessionState)
    (res : SwapResult)
    (h : SessionManager.applySwapCore session tokenIn tokenOut amountIn amountOut
        proposalId ts = .ok (s', res)) :
    s'.history = session.history ++ [res] ∧ res.amountIn = amountIn ∧
      res.amountOut = amountOut := by
  unfold SessionManager.applySwapCore at h
  split at h
  · cases h
  split at h <;> try cases h
  next balanceIn balanceOut hin hout =>
    split at h
    · cases h
    · cases h
      exact ⟨rfl, rfl, rfl⟩

/-- The session component of a successful `applySwap` is the successful
`applySwapCore` (the channel call afterwards cannot change or fail it). -/
theorem applySwap_ok_core (session : SessionState) (chan : Option NitroliteChannel.Client)
    (tokenIn tokenOut : Asset) (amountIn amountOut : ℚ)
    (proposalId uuidSig ts : String) (s' : SessionState)
    (chan' : Option NitroliteChannel.Client) (res : SwapResult)
    (h : SessionManager.applySwap session chan tokenIn tokenOut amountIn amountOut
        proposalId uuidSig ts = .ok (s', chan', res)) :
    SessionManager.applySwapCore session tokenIn tokenOut amountIn amountOut
      proposalId ts = .ok (s', res) := by
  unfold SessionManager.applySwap at h
  cases hc : SessionManager.applySwapCore session tokenIn tokenOut amountIn amountOut
      proposalId ts with
  | error e =>
    rw [hc] at h
    cases h
  | ok pr =>
    rw [hc] at h
    rw [except_ok_bind] at h
    cases h
    rfl

/-- A failing `applySwap` is a failing `applySwapCore`. -/
theorem applySwap_error_core (session : SessionState) (chan : Option NitroliteChannel.Client)
    (tokenIn tokenOut : Asset) (amountIn amountOut : ℚ)
    (proposalId uuidSig ts : String) (e : String)
    (h : SessionManager.applySwap session chan tokenIn tokenOut amountIn amountOut
        proposalId uuidSig ts = .error e) :
    SessionManager.applySwapCore session tokenIn tokenOut amountIn amountOut
      proposalId ts = .error e := by
  unfold SessionManager.applySwap at h
  cases hc : SessionManager.applySwapCore session tokenIn tokenOut amountIn amountOut
      proposalId ts with
  | error e' =>
    rw [hc] at h
    cases h
    rfl
  | ok pr =>
    rw [hc] at h
    rw [except_ok_bind] at h
    cases h

/-- Over any run of `applySwap` calls, a present balance entry stays
present, keeps its `initialAmount`, and accumulates exactly the net signed
delta of the accepted calls. -/
theorem runSwaps_delta (calls : List SwapCall) (s : SessionState)
    (chan : Option NitroliteChannel.Client) (a : Asset) (b : SessionBalance)
    (hb : s.balances a = some b) :
    ∃ b', (runSwaps s chan calls).1.balances a = some b' ∧
      b'.initialAmount = b.initialAmount ∧
      b'.amount = b.amount + netDelta (runSwaps s chan calls).2.2 a := by
  induction calls generalizing s chan b with
  | nil => exact ⟨b, hb, rfl, by simp [runSwaps, netDelta]⟩
  | cons call rest ih =>
    unfold runSwaps
    cases hstep : SessionManager.applySwap s chan call.tokenIn call.tokenOut
        call.amountIn call.amountOut call.proposalId call.uuidSig call.ts with
    | ok out =>
      obtain ⟨s1, chan1, r⟩ := out
      have hcore := applySwap_ok_core _ _ _ _ _ _ _ _ _ _ _ _ hstep
      obtain ⟨hinitm, hamtm⟩ := applySwapCore_ok_balance _ _ _ _ _ _ _ _ _ hcore a b hb
      cases hb1x : s1.balances a with
      | none =>
        rw [hb1x] at hinitm
        cases hinitm
      | some b1 =>
        rw [hb1x] at hinitm hamtm
        simp only [Option.map_some'] at hinitm hamtm
        have hinit1 := Option.some.inj hinitm
        have hamt1 := Option.some.inj hamtm
        obtain ⟨b2, hb2, hinit2, hamt2⟩ := ih s1 chan1 b1 hb1x
        refine ⟨b2, by simpa using hb2, by rw [hinit2, hinit1], ?_⟩
        have hnd : netDelta ((runSwaps s1 chan1 rest).2.2) a
            = netDelta (call :: (runSwaps s1 chan1 rest).2.2) a
              - ((if call.tokenIn = a then -call.amountIn else 0)
                + (if call.tokenOut = a then call.amountOut else 0)) := by
          rw [netDelta, netDelta, List.map_cons, List.sum_cons]
          ring
        simp only []
        rw [hamt2, hamt1, hnd]
        ring
    | error e =>
      obtain ⟨b2, hb2, hinit2, hamt2⟩ := ih s chan b hb
      exact ⟨b2, by simpa using hb2, hinit2, by simpa using hamt2⟩

/-- Over any run, the history's executed amounts are exactly those of the
accepted calls, appended in order. -/
theorem runSwaps_history (calls : List SwapCall) (s : SessionState)
    (chan : Option NitroliteChannel.Client) :
    (runSwaps s chan calls).1.history.map (fun r => (r.amountIn, r.amountOut))
      = s.history.map (fun r => (r.amountIn, r.amountOut))
        ++ (runSwaps s chan calls).2.2.map (fun c => (c.amountIn, c.amountOut)) := by
  induction calls generalizing s chan with
  | nil => simp [runSwaps]
  | cons call rest ih =>
    unfold runSwaps
    cases hstep : SessionManager.applySwap s chan call.tokenIn call.tokenOut
        call.amountIn call.amountOut call.proposalId call.uuidSig call.ts with
    | ok out =>
      obtain ⟨s1, chan1, r⟩ := out
      have hcore := applySwap_ok_core _ _ _ _ _ _ _ _ _ _ _ _ hstep
      obtain ⟨hhist, hAin, hAout⟩ := applySwapCore_ok_history _ _ _ _ _ _ _ _ _ hcore
      simp only [List.map_cons]
      rw [ih s1 chan1, hhist]
      simp [hAin, hAout]
    | error e =>
      simpa using ih s chan

/-- C7: starting from `open` (USDC = deposit, ETH = 0, `initialAmount`
mirroring `amount`), after any sequence of `applySwap` calls — with or
without a channel, accepted or thrown — every asset's current balance minus
its initial balance equals the sum over the executed swaps of the signed
deltas (`-amountIn` on the entry's input side, `+amountOut` on its output
side), and the history records exactly those executed amounts in order.
(The stored `SwapResult` does not carry the token sides, so the per-entry
sides are those of the corresponding accepted call, which the history
mirrors one-to-one.) -/
theorem history_sums_to_balance_delta (deposit : ℚ) (sid t : String)
    (chan : Option NitroliteChannel.Client) (calls : List SwapCall) (a : Asset) :
    (∃ b', (runSwaps (SessionManager.openState deposit sid t) chan calls).1.balances a
        = some b' ∧
      b'.amount - b'.initialAmount
        = netDelta (runSwaps (SessionManager.openState deposit sid t) chan calls).2.2 a) ∧
    (runSwaps (SessionManager.openState deposit sid t) chan calls).1.history.map
        (fun r => (r.amountIn, r.amountOut))
      = (runSwaps (SessionManager.openState deposit sid t) chan calls).2.2.map
        (fun c => (c.amountIn, c.amountOut)) := by
  constructor
  · have hb : (SessionManager.openState deposit sid t).balances a
        = some (match a with
          | .USDC => { asset := .USDC, amount := deposit, initialAmount := deposit, pnl := 0 }
          | .ETH => { asset := .ETH, amount := 0, initialAmount := 0, pnl := 0 }) := by
      cases a <;> rfl
    obtain ⟨b', hb', hinit, hamt⟩ := runSwaps_delta calls _ chan a _ hb
    refine ⟨b', hb', ?_⟩
    rw [hamt, hinit]
    cases a <;> simp
  · have := runSwaps_history calls (SessionManager.openState deposit sid t) chan
    simpa [SessionManager.openState] using this

/-! ## C5 — channel state signatures -/

/-- The simulated broker co-signature is not a `signState` signature over
any hash by any key: the two strings differ in their first character. -/
theorem broker_sig_ne_signState (u key : String) (st : NitroliteChannel.ChannelState) :
    "broker-sig-" ++ u ≠ NitroliteChannel.signState key st :=
  ne_of_head_char _ _ 'b' '0' rfl rfl (by decide)

/-- A successful `openChannel` keeps the client config, installs the
returned session, and every state in its history (the turn-0 prefund state)
carries the operator signature plus the simulated broker placeholder. -/
theorem openChannel_ok_shape (c : NitroliteChannel.Client) (bal : Balances)
    (uuid uuidSig ts : String) (c' : NitroliteChannel.Client)
    (session : NitroliteChannel.ChannelSession)
    (h : NitroliteChannel.openChannel c bal uuid uuidSig ts = .ok (c', session)) :
    c'.config = c.config ∧ c'.channel = some session ∧
    ∀ st ∈ session.stateHistory, WellSigned c.config.signerPrivateKey st := by
  unfold NitroliteChannel.openChannel NitroliteChannel.openChannelFresh at h
  split at h
  · cases h
  split at h
  next ch =>
    split at h
    · cases h
    · cases h
      refine ⟨rfl, rfl, ?_⟩
      intro st hst
      rw [List.mem_singleton] at hst
      subst hst
      exact ⟨rfl, rfl, ⟨uuidSig, rfl⟩⟩
  next =>
    cases h
    refine ⟨rfl, rfl, ?_⟩
    intro st hst
    rw [List.mem_singleton] at hst
    subst hst
    exact ⟨rfl, rfl, ⟨uuidSig, rfl⟩⟩

/-- A successful `updateState` keeps the config, appends exactly the newly
signed state to the history, and that state carries the operator signature
plus the simulated broker placeholder. -/
theorem updateState_ok_shape (c : NitroliteChannel.Client) (bal : Balances)
    (uuidSig ts : String) (c' : NitroliteChannel.Client)
    (stN : NitroliteChannel.ChannelState)
    (h : NitroliteChannel.updateState c bal uuidSig ts = .ok (c', stN)) :
    c'.config = c.config ∧
    ∃ ch, c.channel = some ch ∧
      c'.channel = some { ch with currentState := stN
                                  stateHistory := ch.stateHistory ++ [stN] } ∧
      WellSigned c.config.signerPrivateKey stN := by
  unfold NitroliteChannel.updateState at h
  split at h
  · cases h
  split at h
  next ch heq =>
    split at h
    · cases h
      exact ⟨rfl, ch, heq, rfl, rfl, rfl, uuidSig, rfl⟩
    · cases h
  next heq => cases h

/-- A successful `closeChannel` keeps the config; the finalized session it
installs extends the previous history by exactly the final signed state. -/
theorem closeChannel_ok_shape (c : NitroliteChannel.Client) (uuidSig ts : String)
    (c' : NitroliteChannel.Client) (sess : NitroliteChannel.ChannelSession)
    (h : NitroliteChannel.closeChannel c uuidSig ts = .ok (c', sess)) :
    c'.config = c.config ∧
    ∃ ch stN, c.channel = some ch ∧ c'.channel = some sess ∧
      sess.stateHistory = ch.stateHistory ++ [stN] ∧
      WellSigned c.config.signerPrivateKey stN := by
  unfold NitroliteChannel.closeChannel at h
  split at h
  · cases h
  split at h
  next ch heq =>
    split at h
    · cases h
      exact ⟨rfl, ch, _, heq, rfl, rfl, rfl, rfl, uuidSig, rfl⟩
    · cases h
  next heq => cases h

/-- Reachability invariant: starting from any client all of whose recorded
channel states are well-signed (in particular a fresh one, which has none),
every state the ledger ever accepts into a channel history over any
operation sequence is well-signed: exactly two signatures, the operator's
`signState` over the `stateHash`, and a simulated `broker-sig-…`
placeholder. -/
theorem runChanOps_wellSigned (ops : List ChanOp) (c : NitroliteChannel.Client)
    (hinv : ∀ ch, c.channel = some ch → ∀ st ∈ ch.stateHistory,
      WellSigned c.config.signerPrivateKey st) :
    ∀ ch, (runChanOps c ops).channel = some ch → ∀ st ∈ ch.stateHistory,
      WellSigned c.config.signerPrivateKey st := by
  induction ops generalizing c with
  | nil => exact hinv
  | cons op rest ih =>
    cases op with
    | connect => exact ih _ (fun ch hch => hinv ch hch)
    | disconnect => exact ih _ (fun ch hch => hinv ch hch)
    | openCh bal uuid uuidSig ts =>
      unfold runChanOps
      cases hop : NitroliteChannel.openChannel c bal uuid uuidSig ts with
      | ok out =>
        obtain ⟨c2, sess⟩ := out
        obtain ⟨hcfg, hch2, hsigned⟩ := openChannel_ok_shape _ _ _ _ _ _ _ hop
        have h2 : ∀ ch, c2.channel = some ch → ∀ st ∈ ch.stateHistory,
            WellSigned c2.config.signerPrivateKey st := by
          intro ch hch st hst
          rw [hch2] at hch
          cases hch
          rw [hcfg]
          exact hsigned st hst
        have := ih c2 h2
        rw [hcfg] at this
        exact this
      | error e => exact ih _ (fun ch hch => hinv ch hch)
    | update bal uuidSig ts =>
      unfold runChanOps
      cases hop : NitroliteChannel.updateState c bal uuidSig ts with
      | ok out =>
        obtain ⟨c2, stN⟩ := out
        obtain ⟨hcfg, ch0, hch0, hch2, hsigned⟩ := updateState_ok_shape _ _ _ _ _ _ hop
        have h2 : ∀ ch, c2.channel = some ch → ∀ st ∈ ch.stateHistory,
            WellSigned c2.config.signerPrivateKey st := by
          intro ch hch st hst
          rw [hch2] at hch
          cases hch
          simp only [List.mem_append, List.mem_singleton] at hst
          rw [hcfg]
          rcases hst with hst | hst
          · exact hinv ch0 hch0 st hst
          · subst hst
            exact hsigned
        have := ih c2 h2
        rw [hcfg] at this
        exact this
      | error e => exact ih _ (fun ch hch => hinv ch hch)
    | closeCh uuidSig ts =>
      unfold runChanOps
      cases hop : NitroliteChannel.closeChannel c uuidSig ts with
      | ok out =>
        obtain ⟨c2, sess⟩ := out
        obtain ⟨hcfg, ch0, stN, hch0, hch2, hhist, hsigned⟩ :=
          closeChannel_ok_shape _ _ _ _ _ hop
        have h2 : ∀ ch, c2.channel = some ch → ∀ st ∈ ch.stateHistory,
            WellSigned c2.config.signerPrivateKey st := by
          intro ch hch st hst
          rw [hch2] at hch
          cases hch
          rw [hhist] at hst
          simp only [List.mem_append, List.mem_singleton] at hst
          rw [hcfg]
          rcases hst with hst | hst
          · exact hinv ch0 hch0 st hst
          · subst hst
            exact hsigned
        have := ih c2 h2
        rw [hcfg] at this
        exact this
      | error e => exact ih _ (fun ch hch => hinv ch hch)

/-- C5 counterexample: the turn-0 state accepted by `openChannel` (the
channel is `running` and this is its `currentState`) carries as its second
"signature" the simulated placeholder `broker-sig-sig1`, which is not a
`signState` signature over the state's `stateHash` under *any* key — the
ledger attaches an unverifiable placeholder instead of verifying that the
counterparty signature recovers to the broker's address (no recovery check
exists anywhere in the ledger). -/
theorem channel_accepts_unverified_broker_sig :
    demoChannel.status = .running ∧
    demoChannel.currentState.signatures.length = 2 ∧
    demoChannel.currentState.signatures.getD 1 "" = "broker-sig-" ++ "sig1" ∧
    ∀ key, demoChannel.currentState.signatures.getD 1 ""
      ≠ NitroliteChannel.signState key demoChannel.currentState := by
  refine ⟨by decide, by decide, by decide, ?_⟩
  intro key
  rw [(by decide : demoChannel.currentState.signatures.getD 1 ""
    = "broker-sig-" ++ "sig1")]
  exact broker_sig_ne_signState "sig1" key demoChannel.currentState

/-- C5 amended: every channel state accepted by the ledger — at open,
update, and close — carries exactly two signatures over its `stateHash`:
the first is the operator's deterministic `signState` signature, but the
second is always the simulated placeholder `broker-sig-<uuid>`, and the
ledger performs no signature verification: the placeholder is not a
`signState` signature over the `stateHash` under any key. -/
theorem channel_states_two_sigs (cfg : NitroliteChannel.Config) (ops : List ChanOp)
    (ch : NitroliteChannel.ChannelSession) (st : NitroliteChannel.ChannelState)
    (hch : (runChanOps (NitroliteChannel.init cfg) ops).channel = some ch)
    (hst : st ∈ ch.stateHistory) :
    st.signatures.length = 2 ∧
    st.signatures.getD 0 "" = NitroliteChannel.signState cfg.signerPrivateKey st ∧
    (∃ u, st.signatures.getD 1 "" = "broker-sig-" ++ u) ∧
    ∀ key, st.signatures.getD 1 "" ≠ NitroliteChannel.signState key st := by
  have hks := runChanOps_wellSigned ops (NitroliteChannel.init cfg)
    (by intro ch hch; cases hch) ch hch st hst
  obtain ⟨hlen, hop, u, hu⟩ := hks
  refine ⟨hlen, hop, ⟨u, hu⟩, ?_⟩
  intro key
  rw [hu]
  exact broker_sig_ne_signState u key st

/-- Witness for `channel_states_two_sigs` at the concretely reached turn-0
state of `demoChannel`. -/
theorem channel_states_two_sigs_witness :
    demoChannel.currentState.signatures.length = 2 ∧
    demoChannel.currentState.signatures.getD 0 ""
      = NitroliteChannel.signState cfg0.signerPrivateKey demoChannel.currentState ∧
    (∃ u, demoChannel.currentState.signatures.getD 1 "" = "broker-sig-" ++ u) ∧
    ∀ key, demoChannel.currentState.signatures.getD 1 ""
      ≠ NitroliteChannel.signState key demoChannel.currentState :=
  channel_states_two_sigs cfg0 demoOps demoChannel demoChannel.currentState
    (by decide) (by decide)

/-- Witness for `settleSession_replay_safe_and_atomic`: a concrete guard
that has already settled `"session-1"` rejects the replay. -/
theorem settleSession_replay_safe_and_atomic_witness :
    SentinelWallet.settleSession
        { owner := "0xoperator", entryPoint := "0xentry"
          guard := { maxSettlementUsdc := 10000, maxSettlementEth := 10
                     allowedTokens := ["0xusdc"], settledSessions := ["session-1"]
                     policyHash := "0xabc" }
          nonce := 0 }
        "0xoperator" "session-1" "0xusdc" 5 1 100
      = .error "Session already settled" :=
  (settleSession_replay_safe_and_atomic _ "0xoperator" "session-1" "0xusdc" 5 1 100
    (Or.inr rfl)).1 (by decide)

end Sentinel
